import Mathlib

/-!
Verification of the logistics backend core: the pricing engine
(shipping-cost calculation) and the parcel status / tracking-event state
machine, embedded shallowly from the repository sources.

Sources embedded here:
* Logistics_system.py — Package, PricingRule, PackageManager
  (calculate_shipping_cost), TrackingManager (record_event,
  get_current_status, get_tracking_history).
* my_backed2/src/app.py — Package, PricingRule, PackageManager
  (_initialize_pricing_rules, calculate_cost).
* 專案9/app.py — set_parcel_status, set_parcel_amount route handlers.

Numbers are modelled as rationals (Python floats idealized as exact
arithmetic); Python round(x, 2) is modelled as round-half-to-even at two
decimal places.  Timestamps, uuid-generated identifiers and JSON/Excel
persistence are identity-irrelevant to the verified properties and are
omitted; store state is explicit and passed by value.
-/

namespace Logistics

/-- Python round() rounds half to even.  Integer-valued rounding of a
rational, mirroring round(q) for exact inputs. -/
def pyRound (q : ℚ) : ℤ :=
  let f : ℤ := ⌊q⌋
  let r : ℚ := q - (f : ℚ)
  if r < 1/2 then f
  else if 1/2 < r then f + 1
  else if f % 2 = 0 then f else f + 1

/-- Python round(x, 2): round half to even at two decimal places. -/
def round2 (q : ℚ) : ℚ := ((pyRound (q * 100) : ℤ) : ℚ) / 100

/-- Python str.strip(): drop leading and trailing whitespace. -/
def pyStrip (s : String) : String :=
  ⟨((s.data.dropWhile Char.isWhitespace).reverse.dropWhile Char.isWhitespace).reverse⟩

/-- ServiceType enum (Logistics_system.py lines 25-30; identical in
my_backed2/src/app.py lines 29-33). -/
inductive ServiceType
  | STANDARD
  | EXPRESS
  | OVERNIGHT
  | INTERNATIONAL
deriving DecidableEq, Repr

/-- PackageStatus enum (Logistics_system.py lines 33-42). -/
inductive PackageStatus
  | CREATED
  | PICKUP
  | IN_TRANSIT
  | AT_FACILITY
  | SORTING
  | OUT_FOR_DELIVERY
  | DELIVERED
  | EXCEPTION
deriving DecidableEq, Repr

/-- SpecialMarker enum (Logistics_system.py lines 45-50). -/
inductive SpecialMarker
  | DANGEROUS
  | FRAGILE
  | INTERNATIONAL
  | PERISHABLE
deriving DecidableEq, Repr

/-- The .value string of each SpecialMarker member. -/
def markerValue : SpecialMarker → String
  | .DANGEROUS => "危險品"
  | .FRAGILE => "易碎品"
  | .INTERNATIONAL => "國際件"
  | .PERISHABLE => "易腐品"

/-- Python dict assignment d[k] = v on an association list: overwrite the
existing binding or append a new one. -/
def assocPut {α : Type} : List (String × α) → String → α → List (String × α)
  | [], k, v => [(k, v)]
  | (k', v') :: rest, k, v =>
      if k' = k then (k, v) :: rest else (k', v') :: assocPut rest k v

/-- Python dict lookup d.get(k) on an association list. -/
def assocFind {α : Type} (l : List (String × α)) (k : String) : Option α :=
  (l.find? (fun p => p.1 = k)).map (fun p => p.2)

/- ===================== Logistics_system.py ===================== -/

/-- PricingRule (Logistics_system.py lines 154-163): per-tier base rate and
a dict from fee name to flat surcharge amount. -/
structure LPricingRule where
  service_type : ServiceType
  base_rate : ℚ
  additional_fees : List (String × ℚ)
deriving DecidableEq, Repr

/-- PricingRule.add_additional_fee (Logistics_system.py lines 161-163). -/
def LPricingRule.add_additional_fee (r : LPricingRule) (fee_name : String)
    (amount : ℚ) : LPricingRule :=
  { r with additional_fees := assocPut r.additional_fees fee_name amount }

/-- Package data model (Logistics_system.py lines 84-123).  The
uuid-generated tracking number and creation timestamp are caller-supplied
here. -/
structure LPackage where
  tracking_number : String
  sender_id : String
  recipient_name : String
  recipient_address : String
  weight : ℚ
  length : ℚ
  width : ℚ
  height : ℚ
  declared_value : ℚ
  content_description : String
  service_type : ServiceType
  status : PackageStatus
  special_markers : List SpecialMarker
deriving DecidableEq, Repr

/-- Package.add_special_marker (Logistics_system.py lines 116-119): append
the marker only if not already present. -/
def LPackage.add_special_marker (p : LPackage) (m : SpecialMarker) : LPackage :=
  if m ∈ p.special_markers then p
  else { p with special_markers := p.special_markers ++ [m] }

/-- Package.calculate_volume_weight (Logistics_system.py lines 121-123). -/
def LPackage.calculate_volume_weight (p : LPackage) : ℚ :=
  (p.length * p.width * p.height) / 5000

/-- PackageManager._initialize_pricing_rules of the active (JSON-persisting)
PackageManager (Logistics_system.py lines 285-290): four tiers, no
additional fees configured. -/
def logisticsRules : ServiceType → Option LPricingRule
  | .STANDARD => some ⟨.STANDARD, 5, []⟩
  | .EXPRESS => some ⟨.EXPRESS, 8, []⟩
  | .OVERNIGHT => some ⟨.OVERNIGHT, 12, []⟩
  | .INTERNATIONAL => some ⟨.INTERNATIONAL, 15, []⟩

/-- The additional-cost loop of PackageManager.calculate_shipping_cost
(Logistics_system.py lines 384-388): sum the configured fee of each marker
present on the package; markers without a configured fee contribute
nothing. -/
def additionalCost (fees : List (String × ℚ)) (markers : List SpecialMarker) : ℚ :=
  markers.foldl
    (fun acc m =>
      match assocFind fees (markerValue m) with
      | some fee => acc + fee
      | none => acc)
    0

/-- PackageManager.calculate_shipping_cost (Logistics_system.py lines
370-390).  The manager's packages dict is modelled as a list keyed by
tracking number. -/
def calculate_shipping_cost (rules : ServiceType → Option LPricingRule)
    (packages : List LPackage) (tracking_number : String) : Option ℚ :=
  match packages.find? (fun p => p.tracking_number = tracking_number) with
  | none => none
  | some package =>
    match rules package.service_type with
    | none => none
    | some pricing_rule =>
      let chargeable_weight := max package.weight package.calculate_volume_weight
      let base_cost := chargeable_weight * pricing_rule.base_rate
      some (base_cost + additionalCost pricing_rule.additional_fees package.special_markers)

/-- TrackingEvent (Logistics_system.py lines 141-151); uuid event id and
datetime timestamp omitted. -/
structure LTrackingEvent where
  tracking_number : String
  status : PackageStatus
  location : String
  notes : String
deriving DecidableEq, Repr

/-- State of TrackingManager together with its PackageManager's packages
(Logistics_system.py lines 393-397). -/
structure TrackState where
  packages : List LPackage
  tracking_events : List (String × List LTrackingEvent)
deriving DecidableEq, Repr

/-- Update the status of the package stored under the given tracking
number (the mutation package.status = status inside record_event). -/
def setPackageStatus : List LPackage → String → PackageStatus → List LPackage
  | [], _, _ => []
  | p :: rest, trk, s =>
      if p.tracking_number = trk then { p with status := s } :: rest
      else p :: setPackageStatus rest trk s

/-- TrackingManager.record_event (Logistics_system.py lines 399-413):
fails if the package is unknown; otherwise appends the event to the
package's event list and sets the package's status. -/
def record_event (st : TrackState) (tracking_number : String)
    (status : PackageStatus) (location : String) (notes : String) :
    Bool × TrackState :=
  match st.packages.find? (fun p => p.tracking_number = tracking_number) with
  | none => (false, st)
  | some _ =>
    let event : LTrackingEvent := ⟨tracking_number, status, location, notes⟩
    let events := (assocFind st.tracking_events tracking_number).getD []
    (true,
      { packages := setPackageStatus st.packages tracking_number status,
        tracking_events :=
          assocPut st.tracking_events tracking_number (events ++ [event]) })

/-- The dict returned by TrackingManager.get_current_status
(Logistics_system.py lines 425-438); datetime timestamp omitted. -/
structure CurrentStatusView where
  tracking_number : String
  status : PackageStatus
  location : String
  notes : String
deriving DecidableEq, Repr

/-- TrackingManager.get_current_status (Logistics_system.py lines 425-438):
the latest event is events[-1]; None when the package has no events. -/
def get_current_status (st : TrackState) (tracking_number : String) :
    Option CurrentStatusView :=
  match assocFind st.tracking_events tracking_number with
  | none => none
  | some events =>
    match events.getLast? with
    | none => none
    | some latest => some ⟨tracking_number, latest.status, latest.location, latest.notes⟩

/-- One entry of the list returned by get_tracking_history
(Logistics_system.py lines 443-451); datetime timestamp omitted. -/
structure HistoryEntry where
  status : PackageStatus
  location : String
  notes : String
deriving DecidableEq, Repr

/-- TrackingManager.get_tracking_history (Logistics_system.py lines
440-451): the stored event list of the package, in stored order, as dicts;
the empty list when the package has no entry. -/
def get_tracking_history (st : TrackState) (tracking_number : String) :
    List HistoryEntry :=
  ((assocFind st.tracking_events tracking_number).getD []).map
    (fun e => ⟨e.status, e.location, e.notes⟩)

/-- Modelled from the spec: operation history "returns the full ordered
(most-recent-first) sequence of events for a parcel" — the stored
append-order sequence reversed.  Used only to compare the source's
get_tracking_history against the spec's ordering. -/
def historyMostRecentFirst (st : TrackState) (tracking_number : String) :
    List HistoryEntry :=
  (((assocFind st.tracking_events tracking_number).getD []).reverse).map
    (fun e => ⟨e.status, e.location, e.notes⟩)

/- ===================== my_backed2/src/app.py ===================== -/

/-- Package data model (my_backed2/src/app.py lines 82-119), extended over
the Logistics_system.py one with distance and location. -/
structure M2Package where
  tracking_number : String
  sender_id : String
  recipient_name : String
  recipient_address : String
  weight : ℚ
  length : ℚ
  width : ℚ
  height : ℚ
  declared_value : ℚ
  distance : ℚ
  content_description : String
  service_type : ServiceType
  status : PackageStatus
  special_markers : List SpecialMarker
  location : String
deriving DecidableEq, Repr

/-- Package.calculate_volume_weight (my_backed2/src/app.py lines 118-119). -/
def M2Package.calculate_volume_weight (p : M2Package) : ℚ :=
  (p.length * p.width * p.height) / 5000

/-- Package.add_special_marker (my_backed2/src/app.py lines 114-116). -/
def M2Package.add_special_marker (p : M2Package) (m : SpecialMarker) : M2Package :=
  if m ∈ p.special_markers then p
  else { p with special_markers := p.special_markers ++ [m] }

/-- PricingRule (my_backed2/src/app.py lines 154-162): base rate per kg, a
distance rate fixed at 2.0 by __init__, and a dict of additional fees. -/
structure M2PricingRule where
  service_type : ServiceType
  base_rate : ℚ
  distance_rate : ℚ
  additional_fees : List (String × ℚ)
deriving DecidableEq, Repr

/-- PricingRule.__init__ (my_backed2/src/app.py lines 155-159):
distance_rate starts at 2.0 and additional_fees empty. -/
def mkM2PricingRule (st : ServiceType) (rate : ℚ) : M2PricingRule :=
  ⟨st, rate, 2, []⟩

/-- PricingRule.add_additional_fee (my_backed2/src/app.py lines 161-162). -/
def M2PricingRule.add_additional_fee (r : M2PricingRule) (fee_name : String)
    (amount : ℚ) : M2PricingRule :=
  { r with additional_fees := assocPut r.additional_fees fee_name amount }

/-- PackageManager._initialize_pricing_rules (my_backed2/src/app.py lines
212-215): STANDARD, EXPRESS and OVERNIGHT get a rule; INTERNATIONAL gets
none; no additional fees are configured. -/
def m2Rules : ServiceType → Option M2PricingRule
  | .STANDARD => some (mkM2PricingRule .STANDARD 5)
  | .EXPRESS => some (mkM2PricingRule .EXPRESS 8)
  | .OVERNIGHT => some (mkM2PricingRule .OVERNIGHT 12)
  | .INTERNATIONAL => none

/-- The breakdown dict returned by PackageManager.calculate_cost
(my_backed2/src/app.py lines 330-340). -/
structure CostBreakdown where
  tracking_number : String
  base_cost : ℚ
  weight_cost : ℚ
  distance_cost : ℚ
  charge_weight : ℚ
  volume_weight : ℚ
  actual_weight : ℚ
  distance : ℚ
  total : ℚ
deriving DecidableEq, Repr

/-- The cost computation of PackageManager.calculate_cost once the package
and rule are in hand (my_backed2/src/app.py lines 316-340). -/
def calcCostWithRule (pkg : M2Package) (rule : M2PricingRule) : CostBreakdown :=
  let vol_weight := pkg.calculate_volume_weight
  let charge_weight := max pkg.weight vol_weight
  let weight_cost := charge_weight * rule.base_rate
  let dist_cost := pkg.distance * rule.distance_rate
  let base_cost : ℚ := 50
  let total := base_cost + weight_cost + dist_cost
  { tracking_number := pkg.tracking_number
    base_cost := round2 base_cost
    weight_cost := round2 weight_cost
    distance_cost := round2 dist_cost
    charge_weight := round2 charge_weight
    volume_weight := round2 vol_weight
    actual_weight := pkg.weight
    distance := pkg.distance
    total := round2 total }

/-- The rule lookup of calculate_cost (my_backed2/src/app.py line 315):
self.pricing_rules.get(pkg.service_type, self.pricing_rules[STANDARD]). -/
def ruleOrStandard (rules : ServiceType → Option M2PricingRule)
    (st : ServiceType) : Option M2PricingRule :=
  match rules st with
  | some r => some r
  | none => rules ServiceType.STANDARD

/-- PackageManager.calculate_cost (my_backed2/src/app.py lines 310-340);
none models the error dict returned for an unknown tracking number. -/
def calculate_cost (rules : ServiceType → Option M2PricingRule)
    (packages : List M2Package) (tracking_number : String) :
    Option CostBreakdown :=
  match packages.find? (fun p => p.tracking_number = tracking_number) with
  | none => none
  | some pkg =>
    match ruleOrStandard rules pkg.service_type with
    | none => none
    | some rule => some (calcCostWithRule pkg rule)

/-- Modelled from the spec: "Total = base fee + weight cost + distance
cost + surcharge, rounded to 2 decimal places", with "Surcharge = sum of
rule.additional_fees[marker] for every special marker present on the
parcel that has a configured fee".  Used only to compare the source's
calculate_cost total against the spec's formula. -/
def specTotal (pkg : M2Package) (rule : M2PricingRule) : ℚ :=
  round2 (50 + max pkg.weight pkg.calculate_volume_weight * rule.base_rate
    + pkg.distance * rule.distance_rate
    + additionalCost rule.additional_fees pkg.special_markers)

/- ===================== 專案9/app.py ===================== -/

/-- Parcel record as created by the 專案9/app.py create_parcel route
(lines 231-244); fields not read by the verified routes (package type,
declared value, contents, service type, timestamps) are omitted.  Status
and event types are plain strings in this iteration. -/
structure P9Parcel where
  tracking_number : String
  sender_id : String
  recipient_name : String
  status : String
  amount : Option ℚ
deriving DecidableEq, Repr

/-- Tracking-event record as passed to append_tracking_event by
專案9/app.py (lines 366-377); the generated event id and timestamp are
omitted. -/
structure P9Event where
  tracking_number : String
  event_type : String
  location : String
  vehicle_id : String
  warehouse_id : String
  operator : String
  description : String
deriving DecidableEq, Repr

/-- Flat-store state behind 專案9/app.py: the parcel rows and the
append-only tracking-event rows. -/
structure P9DB where
  parcels : List P9Parcel
  events : List P9Event
deriving DecidableEq, Repr

/-- Error kinds raised by the 專案9/app.py routes (spec section 7):
PermissionDenied is the 403 responses, BadRequest the 400 input
responses, NotFound the 404, InvalidTransition the 400 abnormal-state
response, UpdateFailed the 404 update-failure response. -/
inductive ApiError
  | PermissionDenied
  | BadRequest
  | NotFound
  | InvalidTransition
  | UpdateFailed
deriving DecidableEq, Repr

/-- Outcome of the set_parcel_status route: the success response carries
the new status. -/
inductive StatusResult
  | ok (status : String)
  | err (e : ApiError)
deriving DecidableEq, Repr

/-- Outcome of the set_parcel_amount route: the success response carries
the amount and the payment-status text. -/
inductive AmountResult
  | ok (amount : ℚ) (payment_status : String)
  | err (e : ApiError)
deriving DecidableEq, Repr

/-- Modelled from the spec: db_operations.update_parcel_status is imported
by 專案9/app.py but its module is not under src.  Per spec section 6 the
store exposes putParcel on the parcel keyed by tracking number; the
sibling implementation 專案8/excel_db.py lines 319-333 sets the status
cell of the first matching row and reports whether one was found. -/
def update_parcel_status : List P9Parcel → String → String → Bool × List P9Parcel
  | [], _, _ => (false, [])
  | p :: rest, trk, s =>
      if p.tracking_number = trk then (true, { p with status := s } :: rest)
      else
        let r := update_parcel_status rest trk s
        (r.1, p :: r.2)

/-- Modelled from the spec: db_operations.update_parcel_amount is imported
by 專案9/app.py but its module is not under src.  Per spec section 6 the
store exposes putParcel; the sibling implementation 專案8/excel_db.py
lines 305-316 sets the amount cell of the first matching row, silently
doing nothing when none matches. -/
def update_parcel_amount : List P9Parcel → String → ℚ → List P9Parcel
  | [], _, _ => []
  | p :: rest, trk, a =>
      if p.tracking_number = trk then { p with amount := some a } :: rest
      else p :: update_parcel_amount rest trk a

/-- Modelled from the spec: db_operations.append_tracking_event is
imported by 專案9/app.py but its module is not under src.  Per spec
sections 3 and 6 the event store is append-only (sibling implementation
專案8/excel_db.py lines 339-358 appends one row). -/
def append_tracking_event (db : P9DB) (e : P9Event) : P9DB :=
  { db with events := db.events ++ [e] }

/-- Modelled from the spec: db_operations.read_tracking_events is imported
by 專案9/app.py but its module is not under src.  Per spec section 6 the
store lists a parcel's events as an ordered sequence; the sibling
implementation 專案8/excel_db.py lines 361-385 filters the event rows by
tracking number in stored order. -/
def read_tracking_events (db : P9DB) (trk : String) : List P9Event :=
  db.events.filter (fun e => e.tracking_number = trk)

/-- The parcel lookup of set_parcel_status (專案9/app.py line 341):
next(p for p in parcels if p["tracking_number"] == tracking). -/
def findParcel (db : P9DB) (trk : String) : Option P9Parcel :=
  db.parcels.find? (fun p => p.tracking_number = trk)

/-- ABNORMAL_STATUSES (專案9/app.py line 346). -/
def ABNORMAL_STATUSES : List String := ["遺失", "損毀", "退回"]

/-- The driver allow-list (專案9/app.py line 353). -/
def driverAllowed : List String := ["已裝車", "配送中", "已送達", "延誤", "遺失", "損毀"]

/-- The warehouse allow-list (專案9/app.py line 358). -/
def warehouseAllowed : List String := ["已收件", "進入倉儲", "已裝車", "退回", "損毀"]

/-- set_parcel_status route handler (專案9/app.py lines 321-379), given
the caller's verified role and username and the request fields.  The
checks run in source order: customer rejection, input presence (after
stripping the status), parcel lookup, abnormal-state lock (non-admin
only), driver and warehouse allow-lists; then the store is updated and
the event appended. -/
def set_parcel_status (db : P9DB) (role username : String)
    (tracking rawStatus location vehicle_id warehouse_id description : String) :
    StatusResult × P9DB :=
  if role = "customer" then (.err .PermissionDenied, db)
  else
    let new_status := pyStrip rawStatus
    if tracking = "" ∨ new_status = "" then (.err .BadRequest, db)
    else
      match findParcel db tracking with
      | none => (.err .NotFound, db)
      | some current_parcel =>
        let current_status := current_parcel.status
        if current_status ∈ ABNORMAL_STATUSES ∧ new_status ∉ ["處理中", "退回"] ∧ role ≠ "admin"
        then (.err .InvalidTransition, db)
        else if role = "driver" ∧ new_status ∉ driverAllowed
        then (.err .PermissionDenied, db)
        else if role = "warehouse" ∧ new_status ∉ warehouseAllowed
        then (.err .PermissionDenied, db)
        else
          let r := update_parcel_status db.parcels tracking new_status
          if r.1 then
            let ev : P9Event :=
              { tracking_number := tracking
                event_type := new_status
                location := location
                vehicle_id := vehicle_id
                warehouse_id := warehouse_id
                operator := username
                description :=
                  if description = "" then "狀態變更為: " ++ new_status else description }
            (.ok new_status, append_tracking_event { db with parcels := r.2 } ev)
          else (.err .UpdateFailed, db)

/-- set_parcel_amount route handler (專案9/app.py lines 272-316): validate
the inputs, update the parcel's amount, and append a billing event with
event_type 計費完成 — without touching the parcel's status.  The
formatted description string is abstracted to the empty string. -/
def set_parcel_amount (db : P9DB) (username : String)
    (tracking : String) (amount : Option ℚ) (pay_method : String) :
    AmountResult × P9DB :=
  if tracking = "" then (.err .BadRequest, db)
  else
    match amount with
    | none => (.err .BadRequest, db)
    | some amount_val =>
      if amount_val < 0 then (.err .BadRequest, db)
      else
        let payment_status :=
          if pay_method = "cash" ∨ pay_method = "cod" then "待付款(貨到付款)"
          else if pay_method = "monthly" then "月結帳單"
          else "已付款(線上)"
        let parcels' := update_parcel_amount db.parcels tracking amount_val
        let ev : P9Event :=
          { tracking_number := tracking
            event_type := "計費完成"
            location := "系統"
            vehicle_id := ""
            warehouse_id := ""
            operator := username
            description := "" }
        (.ok amount_val payment_status,
          append_tracking_event { db with parcels := parcels' } ev)

/-- The most recent tracking event recorded for a parcel: the last of its
events in the append-only store. -/
def latestEventFor (db : P9DB) (trk : String) : Option P9Event :=
  (read_tracking_events db trk).getLast?

/- ===================== concrete instances ===================== -/

/-- Scenario C of the spec: weight 0.5 kg, dimensions 100 x 50 x 50 cm. -/
def c1pkg : M2Package :=
  { tracking_number := "TRKC1", sender_id := "a", recipient_name := "b",
    recipient_address := "c", weight := 1/2, length := 100, width := 50,
    height := 50, declared_value := 0, distance := 0,
    content_description := "", service_type := .STANDARD,
    status := .CREATED, special_markers := [], location := "" }

/-- A STANDARD rule with a configured fragile-marker fee of 10. -/
def c2rule : M2PricingRule :=
  (mkM2PricingRule .STANDARD 5).add_additional_fee "易碎品" 10

/-- A rule table whose STANDARD rule carries the fragile fee. -/
def c2rules : ServiceType → Option M2PricingRule
  | .STANDARD => some c2rule
  | _ => none

/-- Scenario B of the spec: a 2 kg parcel bearing the FRAGILE marker. -/
def c2pkg : M2Package :=
  { tracking_number := "TRKC2", sender_id := "a", recipient_name := "b",
    recipient_address := "c", weight := 2, length := 0, width := 0,
    height := 0, declared_value := 0, distance := 0,
    content_description := "", service_type := .STANDARD,
    status := .CREATED, special_markers := [.FRAGILE], location := "" }

/-- A parcel store holding one freshly created parcel with its creation
event, as left by the 專案9/app.py create_parcel route. -/
def c3db : P9DB :=
  ⟨[⟨"TRK-1", "alice", "bob", "建立包裹", none⟩],
   [⟨"TRK-1", "建立包裹", "系統", "", "", "alice", ""⟩]⟩

/-- A parcel store holding one parcel in the abnormal LOST state. -/
def c4db : P9DB := ⟨[⟨"TRK-2", "alice", "bob", "遺失", none⟩], []⟩

/-- A parcel store holding one parcel in the abnormal LOST state. -/
def c5db : P9DB := ⟨[⟨"TRK-3", "alice", "bob", "遺失", none⟩], []⟩

/-- A parcel store holding one parcel in transit (a normal state). -/
def c5db2 : P9DB := ⟨[⟨"TRK-5", "alice", "bob", "配送中", none⟩], []⟩

/-- A parcel store holding one parcel in transit (a normal state). -/
def c10db : P9DB := ⟨[⟨"TRK-4", "alice", "bob", "配送中", none⟩], []⟩

/-- A Logistics_system.py package used by the tracking scenarios. -/
def c8pkg : LPackage :=
  { tracking_number := "T8", sender_id := "a", recipient_name := "b",
    recipient_address := "c", weight := 0, length := 0, width := 0,
    height := 0, declared_value := 0, content_description := "",
    service_type := .STANDARD, status := .CREATED, special_markers := [] }

/-- Tracking state holding one package and no events. -/
def c8st0 : TrackState := ⟨[c8pkg], []⟩

/-- The state after recording a PICKUP event at location A. -/
def c8st1 : TrackState := (record_event c8st0 "T8" .PICKUP "A" "").2

/-- The state after further recording a DELIVERED event at location B. -/
def c8st2 : TrackState := (record_event c8st1 "T8" .DELIVERED "B" "").2

/-- A Logistics_system.py package used by the consistency witness. -/
def c3pkg : LPackage :=
  { tracking_number := "T3", sender_id := "a", recipient_name := "b",
    recipient_address := "c", weight := 0, length := 0, width := 0,
    height := 0, declared_value := 0, content_description := "",
    service_type := .STANDARD, status := .CREATED, special_markers := [] }

/-- Tracking state holding one package and no events. -/
def c3st0 : TrackState := ⟨[c3pkg], []⟩

/-- A package of the INTERNATIONAL tier, which my_backed2 initializes no
rule for. -/
def c7pkg : M2Package :=
  { tracking_number := "TRKC7", sender_id := "a", recipient_name := "b",
    recipient_address := "c", weight := 3, length := 10, width := 10,
    height := 10, declared_value := 0, distance := 4,
    content_description := "", service_type := .INTERNATIONAL,
    status := .CREATED, special_markers := [], location := "" }

/-- Two snapshots of the same parcel differing only in fields irrelevant
to pricing (recipient, description, status, markers, location). -/
def c9pkgA : M2Package :=
  { tracking_number := "TRKC9", sender_id := "a", recipient_name := "b",
    recipient_address := "c", weight := 5/2, length := 30, width := 20,
    height := 10, declared_value := 0, distance := 7,
    content_description := "books", service_type := .EXPRESS,
    status := .CREATED, special_markers := [], location := "" }

/-- The second snapshot: same physical attributes as c9pkgA, different
recipient, description, status, markers and location. -/
def c9pkgB : M2Package :=
  { tracking_number := "TRKC9", sender_id := "a", recipient_name := "z",
    recipient_address := "w", weight := 5/2, length := 30, width := 20,
    height := 10, declared_value := 9, distance := 7,
    content_description := "toys", service_type := .EXPRESS,
    status := .DELIVERED, special_markers := [.FRAGILE], location := "倉A" }

/-- A Logistics_system.py package without markers, for the set-semantics
witness. -/
def c6pkg : LPackage :=
  { tracking_number := "T6", sender_id := "a", recipient_name := "b",
    recipient_address := "c", weight := 1, length := 0, width := 0,
    height := 0, declared_value := 0, content_description := "",
    service_type := .STANDARD, status := .CREATED, special_markers := [] }

/-- A fee table configuring the fragile surcharge at 10. -/
def c6fees : List (String × ℚ) := [("易碎品", 10)]

/- ===================== helper lemmas ===================== -/

/-- Appending one marker adds exactly its configured fee (or nothing) to
the additional-cost sum. -/
theorem additionalCost_concat (fees : List (String × ℚ)) (ms : List SpecialMarker)
    (m : SpecialMarker) :
    additionalCost fees (ms ++ [m])
      = additionalCost fees ms + (assocFind fees (markerValue m)).getD 0 := by
  unfold additionalCost
  rw [List.foldl_append]
  cases h : assocFind fees (markerValue m) <;> simp [List.foldl, h]

/-- Looking up the key just stored by assocPut yields the stored value. -/
theorem assocFind_put_self {α : Type} (l : List (String × α)) (k : String) (v : α) :
    assocFind (assocPut l k v) k = some v := by
  induction l with
  | nil => simp [assocPut, assocFind, List.find?]
  | cons hd tl ih =>
    by_cases h : hd.1 = k
    · simp [assocPut, h, assocFind, List.find?]
    · simp only [assocPut, h, if_false]
      simpa [assocFind, List.find?, h] using ih

/-- After setPackageStatus, the package found under the tracking number is
the previously found one with its status replaced. -/
theorem find?_setPackageStatus (l : List LPackage) (trk : String) (s : PackageStatus)
    (p : LPackage) (h : l.find? (fun q => q.tracking_number = trk) = some p) :
    (setPackageStatus l trk s).find? (fun q => q.tracking_number = trk)
      = some { p with status := s } := by
  induction l with
  | nil => simp [List.find?] at h
  | cons hd tl ih =>
    by_cases hq : hd.tracking_number = trk
    · simp [List.find?, hq] at h
      subst h
      simp [setPackageStatus, hq, List.find?]
    · simp [List.find?, hq] at h
      have := ih h
      simp [setPackageStatus, hq, List.find?, this]

/-- update_parcel_status succeeds on a found parcel and stores that parcel
with its status replaced. -/
theorem update_parcel_status_spec (l : List P9Parcel) (trk s : String) (p : P9Parcel)
    (h : l.find? (fun q => q.tracking_number = trk) = some p) :
    (update_parcel_status l trk s).1 = true ∧
    (update_parcel_status l trk s).2.find? (fun q => q.tracking_number = trk)
      = some { p with status := s } := by
  induction l with
  | nil => simp [List.find?] at h
  | cons hd tl ih =>
    by_cases hq : hd.tracking_number = trk
    · simp [List.find?, hq] at h
      subst h
      simp [update_parcel_status, hq, List.find?]
    · simp [List.find?, hq] at h
      have := ih h
      simp [update_parcel_status, hq, List.find?, this.1, this.2]

/- ===================== claim theorems ===================== -/

/-- C1: for every parcel snapshot, the chargeable weight used by the cost
calculation is the maximum of the actual weight and the volumetric weight
length x width x height / 5000 — in my_backed2's calculate_cost (whose
breakdown reports the 2-dp roundings of these quantities) and in
Logistics_system's calculate_shipping_cost (which bills the exact
maximum). -/
theorem c1_chargeable_weight :
    (∀ (rules : ServiceType → Option M2PricingRule) (packages : List M2Package)
        (trk : String) (pkg : M2Package) (rule : M2PricingRule) (bd : CostBreakdown),
      packages.find? (fun p => p.tracking_number = trk) = some pkg →
      ruleOrStandard rules pkg.service_type = some rule →
      calculate_cost rules packages trk = some bd →
      bd.volume_weight = round2 ((pkg.length * pkg.width * pkg.height) / 5000) ∧
      bd.charge_weight
        = round2 (max pkg.weight ((pkg.length * pkg.width * pkg.height) / 5000)) ∧
      bd.weight_cost
        = round2 ((max pkg.weight ((pkg.length * pkg.width * pkg.height) / 5000))
            * rule.base_rate)) ∧
    (∀ (rules : ServiceType → Option LPricingRule) (packages : List LPackage)
        (trk : String) (pkg : LPackage) (rule : LPricingRule) (c : ℚ),
      packages.find? (fun p => p.tracking_number = trk) = some pkg →
      rules pkg.service_type = some rule →
      calculate_shipping_cost rules packages trk = some c →
      c = (max pkg.weight ((pkg.length * pkg.width * pkg.height) / 5000)) * rule.base_rate
          + additionalCost rule.additional_fees pkg.special_markers) := by
  constructor
  · intro rules packages trk pkg rule bd hfind hrule hcalc
    simp only [calculate_cost, hfind, hrule, Option.some.injEq] at hcalc
    subst hcalc
    exact ⟨rfl, rfl, rfl⟩
  · intro rules packages trk pkg rule c hfind hrule hcalc
    simp only [calculate_shipping_cost, hfind, hrule, Option.some.injEq] at hcalc
    exact hcalc.symm

/-- Witness for C1 at Scenario C of the spec: weight 0.5 kg, dimensions
100 x 50 x 50 cm, STANDARD tier. -/
theorem c1_witness :
    ([c1pkg].find? (fun p => p.tracking_number = "TRKC1") = some c1pkg) ∧
    (ruleOrStandard m2Rules c1pkg.service_type = some (mkM2PricingRule .STANDARD 5)) ∧
    (calculate_cost m2Rules [c1pkg] "TRKC1"
      = some (calcCostWithRule c1pkg (mkM2PricingRule .STANDARD 5))) ∧
    ((calcCostWithRule c1pkg (mkM2PricingRule .STANDARD 5)).volume_weight
        = round2 ((c1pkg.length * c1pkg.width * c1pkg.height) / 5000) ∧
      (calcCostWithRule c1pkg (mkM2PricingRule .STANDARD 5)).charge_weight
        = round2 (max c1pkg.weight ((c1pkg.length * c1pkg.width * c1pkg.height) / 5000)) ∧
      (calcCostWithRule c1pkg (mkM2PricingRule .STANDARD 5)).weight_cost
        = round2 ((max c1pkg.weight ((c1pkg.length * c1pkg.width * c1pkg.height) / 5000))
            * (mkM2PricingRule .STANDARD 5).base_rate)) :=
  ⟨rfl, rfl, rfl,
    c1_chargeable_weight.1 m2Rules [c1pkg] "TRKC1" c1pkg (mkM2PricingRule .STANDARD 5)
      (calcCostWithRule c1pkg (mkM2PricingRule .STANDARD 5)) rfl rfl rfl⟩

/-- C2 counterexample: with the FRAGILE surcharge configured at 10 and a
parcel bearing the FRAGILE marker, calculate_cost returns total 60 while
the spec formula (base + weight cost + distance cost + surcharge) gives
70 — calculate_cost never adds a surcharge term. -/
theorem c2_counterexample :
    (calculate_cost c2rules [c2pkg] "TRKC2").map CostBreakdown.total = some 60 ∧
    specTotal c2pkg c2rule = 70 ∧
    (calculate_cost c2rules [c2pkg] "TRKC2").map CostBreakdown.total
      ≠ some (specTotal c2pkg c2rule) := by
  have h1 : calculate_cost c2rules [c2pkg] "TRKC2"
      = some (calcCostWithRule c2pkg c2rule) := rfl
  have h2 : (calcCostWithRule c2pkg c2rule).total = 60 := by
    show round2 _ = 60
    rw [show (50 + max c2pkg.weight c2pkg.calculate_volume_weight * c2rule.base_rate
        + c2pkg.distance * c2rule.distance_rate : ℚ) = 60 by
      norm_num [c2pkg, c2rule, M2Package.calculate_volume_weight, mkM2PricingRule,
        M2PricingRule.add_additional_fee, max_def]]
    norm_num [round2, pyRound]
  have h3 : specTotal c2pkg c2rule = 70 := by
    rw [specTotal, show (50 + max c2pkg.weight c2pkg.calculate_volume_weight * c2rule.base_rate
        + c2pkg.distance * c2rule.distance_rate
        + additionalCost c2rule.additional_fees c2pkg.special_markers : ℚ) = 70 by
      norm_num [c2pkg, c2rule, M2Package.calculate_volume_weight, mkM2PricingRule,
        M2PricingRule.add_additional_fee, max_def, additionalCost, assocFind, assocPut,
        markerValue, List.find?, List.foldl]]
    norm_num [round2, pyRound]
  refine ⟨by rw [h1, Option.map_some', h2], h3, ?_⟩
  rw [h1, Option.map_some', h2, h3]
  norm_num

/-- C2 (amended): the total returned by calculate_cost is the 2-dp
rounding of fixed base fee 50 plus weight cost plus distance cost — with
no surcharge term — and the breakdown reports each sub-total rounded to 2
decimal places. -/
theorem c2_total_formula :
    ∀ (rules : ServiceType → Option M2PricingRule) (packages : List M2Package)
        (trk : String) (pkg : M2Package) (rule : M2PricingRule) (bd : CostBreakdown),
      packages.find? (fun p => p.tracking_number = trk) = some pkg →
      ruleOrStandard rules pkg.service_type = some rule →
      calculate_cost rules packages trk = some bd →
      bd.total = round2 (50 + max pkg.weight pkg.calculate_volume_weight * rule.base_rate
          + pkg.distance * rule.distance_rate) ∧
      bd.base_cost = round2 50 ∧
      bd.weight_cost = round2 (max pkg.weight pkg.calculate_volume_weight * rule.base_rate) ∧
      bd.distance_cost = round2 (pkg.distance * rule.distance_rate) ∧
      bd.actual_weight = pkg.weight ∧
      bd.distance = pkg.distance ∧
      bd.tracking_number = pkg.tracking_number := by
  intro rules packages trk pkg rule bd hfind hrule hcalc
  simp only [calculate_cost, hfind, hrule, Option.some.injEq] at hcalc
  subst hcalc
  exact ⟨rfl, rfl, rfl, rfl, rfl, rfl, rfl⟩

/-- Witness for the amended C2 at the fragile-marked 2 kg parcel. -/
theorem c2_total_formula_witness :
    ([c2pkg].find? (fun p => p.tracking_number = "TRKC2") = some c2pkg) ∧
    (ruleOrStandard c2rules c2pkg.service_type = some c2rule) ∧
    (calculate_cost c2rules [c2pkg] "TRKC2" = some (calcCostWithRule c2pkg c2rule)) ∧
    ((calcCostWithRule c2pkg c2rule).total
      = round2 (50 + max c2pkg.weight c2pkg.calculate_volume_weight * c2rule.base_rate
          + c2pkg.distance * c2rule.distance_rate) ∧
      (calcCostWithRule c2pkg c2rule).base_cost = round2 50 ∧
      (calcCostWithRule c2pkg c2rule).weight_cost
        = round2 (max c2pkg.weight c2pkg.calculate_volume_weight * c2rule.base_rate) ∧
      (calcCostWithRule c2pkg c2rule).distance_cost
        = round2 (c2pkg.distance * c2rule.distance_rate) ∧
      (calcCostWithRule c2pkg c2rule).actual_weight = c2pkg.weight ∧
      (calcCostWithRule c2pkg c2rule).distance = c2pkg.distance ∧
      (calcCostWithRule c2pkg c2rule).tracking_number = c2pkg.tracking_number) :=
  ⟨rfl, rfl, rfl,
    c2_total_formula c2rules [c2pkg] "TRKC2" c2pkg c2rule
      (calcCostWithRule c2pkg c2rule) rfl rfl rfl⟩

/-- C3 counterexample: the billing operation set_parcel_amount appends a
計費完成 event without touching the parcel's status, so after billing a
freshly created parcel the parcel's status 建立包裹 differs from the
status recorded in its most recent tracking event. -/
theorem c3_counterexample :
    (set_parcel_amount c3db "staff1" "TRK-1" (some 100) "cash").1
      = .ok 100 "待付款(貨到付款)" ∧
    ((findParcel (set_parcel_amount c3db "staff1" "TRK-1" (some 100) "cash").2 "TRK-1").map
        P9Parcel.status) = some "建立包裹" ∧
    ((latestEventFor (set_parcel_amount c3db "staff1" "TRK-1" (some 100) "cash").2 "TRK-1").map
        P9Event.event_type) = some "計費完成" ∧
    (some "建立包裹" : Option String) ≠ some "計費完成" := by
  refine ⟨by decide, by decide, by decide, by decide⟩

/-- C3 (amended): after any successful status-change (record_event), the
parcel's current status equals the status of its most recent tracking
event, and get_current_status reports that same status; the invariant is
restored by status changes but not maintained by billing events. -/
theorem c3_status_matches_latest_event :
    ∀ (st : TrackState) (trk : String) (status : PackageStatus)
        (loc notes : String) (st' : TrackState),
      record_event st trk status loc notes = (true, st') →
      ∃ p, st'.packages.find? (fun q => q.tracking_number = trk) = some p ∧
        p.status = status ∧
        ∃ v, get_current_status st' trk = some v ∧ v.status = p.status := by
  intro st trk status loc notes st' h
  unfold record_event at h
  cases hfind : st.packages.find? (fun p => p.tracking_number = trk) with
  | none =>
    rw [hfind] at h
    injection h with h1 _
    cases h1
  | some p0 =>
    rw [hfind] at h
    injection h with h1 h2
    rw [← h2]
    refine ⟨{ p0 with status := status }, ?_, rfl, ?_⟩
    · exact find?_setPackageStatus st.packages trk status p0 hfind
    · refine ⟨⟨trk, status, loc, notes⟩, ?_, rfl⟩
      simp [get_current_status, assocFind_put_self]

/-- Witness for the amended C3: recording a PICKUP event on a fresh
package leaves package status and latest-event status both PICKUP. -/
theorem c3_witness :
    (record_event c3st0 "T3" .PICKUP "倉A" ""
      = (true, (record_event c3st0 "T3" .PICKUP "倉A" "").2)) ∧
    (∃ p, (record_event c3st0 "T3" .PICKUP "倉A" "").2.packages.find?
          (fun q => q.tracking_number = "T3") = some p ∧
      p.status = .PICKUP ∧
      ∃ v, get_current_status (record_event c3st0 "T3" .PICKUP "倉A" "").2 "T3" = some v ∧
        v.status = p.status) :=
  ⟨rfl, c3_status_matches_latest_event c3st0 "T3" .PICKUP "倉A" ""
    (record_event c3st0 "T3" .PICKUP "倉A" "").2 rfl⟩

/-- C4 counterexample: a parcel in the abnormal state 遺失, updated by the
non-administrative staff role to 退回 — which is not the recovery state
處理中 — succeeds and changes the parcel, because the code also exempts
target 退回 from the abnormal-state lock. -/
theorem c4_counterexample :
    (("遺失" : String) ∈ ABNORMAL_STATUSES ∧ ("staff" : String) ≠ "admin" ∧
      pyStrip "退回" ≠ "處理中") ∧
    (set_parcel_status c4db "staff" "staff1" "TRK-2" "退回" "" "" "" "").1 = .ok "退回" ∧
    ((set_parcel_status c4db "staff" "staff1" "TRK-2" "退回" "" "" "" "").2.parcels.map
        P9Parcel.status) = ["退回"] := by
  refine ⟨⟨by decide, by decide, by decide⟩, by decide, by decide⟩

/-- C4 (amended): for a parcel in an abnormal state, a status change by a
non-administrative, non-customer role to any target outside the accepted
set 處理中/退回 fails with InvalidTransition and leaves the store
unchanged (a customer role is rejected earlier with PermissionDenied). -/
theorem c4_abnormal_lock :
    ∀ (db : P9DB) (role username trk rawStatus loc vid wid desc : String) (p : P9Parcel),
      role ≠ "customer" → role ≠ "admin" →
      trk ≠ "" → pyStrip rawStatus ≠ "" →
      findParcel db trk = some p →
      p.status ∈ ABNORMAL_STATUSES →
      pyStrip rawStatus ∉ ["處理中", "退回"] →
      set_parcel_status db role username trk rawStatus loc vid wid desc
        = (.err .InvalidTransition, db) := by
  intro db role username trk rawStatus loc vid wid desc p h1 h2 h3 h4 hfind habn hrec
  simp [set_parcel_status, h1, h2, h3, h4, hfind, habn, hrec]

/-- Witness for the amended C4: a driver updating a lost parcel to 已送達
is rejected with InvalidTransition and the store is unchanged. -/
theorem c4_witness :
    (("driver" : String) ≠ "customer" ∧ ("driver" : String) ≠ "admin" ∧
      ("TRK-2" : String) ≠ "" ∧ pyStrip "已送達" ≠ "" ∧
      findParcel c4db "TRK-2" = some ⟨"TRK-2", "alice", "bob", "遺失", none⟩ ∧
      ("遺失" : String) ∈ ABNORMAL_STATUSES ∧
      pyStrip "已送達" ∉ (["處理中", "退回"] : List String)) ∧
    set_parcel_status c4db "driver" "d1" "TRK-2" "已送達" "" "" "" ""
      = (.err .InvalidTransition, c4db) :=
  ⟨⟨by decide, by decide, by decide, by decide, by decide, by decide, by decide⟩,
    c4_abnormal_lock c4db "driver" "d1" "TRK-2" "已送達" "" "" ""
      "" ⟨"TRK-2", "alice", "bob", "遺失", none⟩ (by decide) (by decide) (by decide)
      (by decide) (by decide) (by decide) (by decide)⟩

/-- C5 counterexample: a driver requesting 已收件 — outside the driver
allow-list — on a parcel in the abnormal state 遺失 fails with
InvalidTransition, not PermissionDenied, because the abnormal-state lock
is checked before the role allow-list. -/
theorem c5_counterexample :
    (pyStrip "已收件" ∉ driverAllowed) ∧
    (set_parcel_status c5db "driver" "d1" "TRK-3" "已收件" "" "" "" "").1
      = .err .InvalidTransition ∧
    (set_parcel_status c5db "driver" "d1" "TRK-3" "已收件" "" "" "" "").1
      ≠ .err .PermissionDenied := by
  refine ⟨by decide, by decide, by decide⟩

/-- C5 (amended): a customer-role actor is always rejected with
PermissionDenied and the store is unchanged; a driver or warehouse actor
requesting a status outside its allow-list is rejected with
PermissionDenied — provided the parcel exists and is not in an abnormal
state, since the abnormal-state lock is checked first. -/
theorem c5_role_allow_list :
    (∀ (db : P9DB) (username trk rawStatus loc vid wid desc : String),
      set_parcel_status db "customer" username trk rawStatus loc vid wid desc
        = (.err .PermissionDenied, db)) ∧
    (∀ (db : P9DB) (username trk rawStatus loc vid wid desc : String) (p : P9Parcel),
      trk ≠ "" → pyStrip rawStatus ≠ "" →
      findParcel db trk = some p →
      p.status ∉ ABNORMAL_STATUSES →
      pyStrip rawStatus ∉ driverAllowed →
      set_parcel_status db "driver" username trk rawStatus loc vid wid desc
        = (.err .PermissionDenied, db)) ∧
    (∀ (db : P9DB) (username trk rawStatus loc vid wid desc : String) (p : P9Parcel),
      trk ≠ "" → pyStrip rawStatus ≠ "" →
      findParcel db trk = some p →
      p.status ∉ ABNORMAL_STATUSES →
      pyStrip rawStatus ∉ warehouseAllowed →
      set_parcel_status db "warehouse" username trk rawStatus loc vid wid desc
        = (.err .PermissionDenied, db)) := by
  refine ⟨?_, ?_, ?_⟩
  · intro db username trk rawStatus loc vid wid desc
    simp [set_parcel_status]
  · intro db username trk rawStatus loc vid wid desc p h3 h4 hfind hnab hallow
    simp [set_parcel_status, show ("driver" : String) ≠ "customer" by decide,
      show ("driver" : String) ≠ "admin" by decide, h3, h4, hfind, hnab, hallow]
  · intro db username trk rawStatus loc vid wid desc p h3 h4 hfind hnab hallow
    simp [set_parcel_status, show ("warehouse" : String) ≠ "customer" by decide,
      show ("warehouse" : String) ≠ "admin" by decide,
      show ("warehouse" : String) ≠ "driver" by decide, h3, h4, hfind, hnab, hallow]

/-- Witness for the amended C5: a driver requesting 退件中 on an in-transit
parcel, and a customer requesting anything, are each rejected with
PermissionDenied. -/
theorem c5_witness :
    (("TRK-5" : String) ≠ "" ∧ pyStrip "退件中" ≠ "" ∧
      findParcel c5db2 "TRK-5" = some ⟨"TRK-5", "alice", "bob", "配送中", none⟩ ∧
      ("配送中" : String) ∉ ABNORMAL_STATUSES ∧
      pyStrip "退件中" ∉ driverAllowed) ∧
    set_parcel_status c5db2 "driver" "d1" "TRK-5" "退件中" "" "" "" ""
      = (.err .PermissionDenied, c5db2) ∧
    set_parcel_status c5db2 "customer" "test1" "TRK-5" "已送達" "" "" "" ""
      = (.err .PermissionDenied, c5db2) :=
  ⟨⟨by decide, by decide, by decide, by decide, by decide⟩,
    c5_role_allow_list.2.1 c5db2 "d1" "TRK-5" "退件中" "" "" "" ""
      ⟨"TRK-5", "alice", "bob", "配送中", none⟩ (by decide) (by decide) (by decide)
      (by decide) (by decide),
    c5_role_allow_list.1 c5db2 "test1" "TRK-5" "已送達" "" "" "" ""⟩

/-- C6: special markers have set semantics — adding the same marker twice
leaves the marker collection equal to adding it once, and a newly added
marker contributes its configured surcharge exactly once to the
additional-cost sum. -/
theorem c6_marker_set_semantics :
    ∀ (p : LPackage) (m : SpecialMarker) (fees : List (String × ℚ)),
      ((p.add_special_marker m).add_special_marker m = p.add_special_marker m) ∧
      (additionalCost fees ((p.add_special_marker m).add_special_marker m).special_markers
        = additionalCost fees (p.add_special_marker m).special_markers) ∧
      (m ∉ p.special_markers →
        additionalCost fees (p.add_special_marker m).special_markers
          = additionalCost fees p.special_markers
            + (assocFind fees (markerValue m)).getD 0) := by
  intro p m fees
  have hidem : (p.add_special_marker m).add_special_marker m = p.add_special_marker m := by
    by_cases hm : m ∈ p.special_markers
    · simp [LPackage.add_special_marker, hm]
    · simp [LPackage.add_special_marker, hm]
  refine ⟨hidem, by rw [hidem], ?_⟩
  intro hm
  simp [LPackage.add_special_marker, hm, additionalCost_concat]

/-- Witness for C6: adding FRAGILE to a marker-free package adds its
configured fee exactly once. -/
theorem c6_witness :
    (SpecialMarker.FRAGILE ∉ c6pkg.special_markers) ∧
    additionalCost c6fees ((c6pkg.add_special_marker .FRAGILE).special_markers)
      = additionalCost c6fees c6pkg.special_markers
        + (assocFind c6fees (markerValue .FRAGILE)).getD 0 :=
  ⟨by decide, (c6_marker_set_semantics c6pkg .FRAGILE c6fees).2.2 (by decide)⟩

/-- C7: a service tier with no configured pricing rule falls back to the
STANDARD rule — the lookup names STANDARD explicitly — and in the
initialized my_backed2 rule table the INTERNATIONAL tier has no rule, so
an INTERNATIONAL parcel is costed with the STANDARD rule instead of
failing. -/
theorem c7_standard_fallback :
    (∀ (rules : ServiceType → Option M2PricingRule) (st : ServiceType),
      rules st = none → ruleOrStandard rules st = rules ServiceType.STANDARD) ∧
    m2Rules ServiceType.INTERNATIONAL = none ∧
    (∀ (packages : List M2Package) (trk : String) (pkg : M2Package),
      packages.find? (fun p => p.tracking_number = trk) = some pkg →
      pkg.service_type = ServiceType.INTERNATIONAL →
      calculate_cost m2Rules packages trk
        = some (calcCostWithRule pkg (mkM2PricingRule .STANDARD 5))) := by
  refine ⟨?_, rfl, ?_⟩
  · intro rules st h
    unfold ruleOrStandard
    rw [h]
  · intro packages trk pkg hfind hst
    simp only [calculate_cost, hfind, hst]
    rfl

/-- Witness for C7 at a concrete INTERNATIONAL-tier package. -/
theorem c7_witness :
    ([c7pkg].find? (fun p => p.tracking_number = "TRKC7") = some c7pkg) ∧
    (c7pkg.service_type = ServiceType.INTERNATIONAL) ∧
    calculate_cost m2Rules [c7pkg] "TRKC7"
      = some (calcCostWithRule c7pkg (mkM2PricingRule .STANDARD 5)) :=
  ⟨rfl, rfl, c7_standard_fallback.2.2 [c7pkg] "TRKC7" c7pkg rfl rfl⟩

/-- C8 counterexample: after recording PICKUP then DELIVERED, the history
returned by get_tracking_history lists the events oldest first — not
most-recent-first as the spec orders them. -/
theorem c8_counterexample :
    get_tracking_history c8st2 "T8"
      = [⟨.PICKUP, "A", ""⟩, ⟨.DELIVERED, "B", ""⟩] ∧
    historyMostRecentFirst c8st2 "T8"
      = [⟨.DELIVERED, "B", ""⟩, ⟨.PICKUP, "A", ""⟩] ∧
    get_tracking_history c8st2 "T8" ≠ historyMostRecentFirst c8st2 "T8" := by
  refine ⟨by decide, by decide, by decide⟩

/-- C8 (amended): get_tracking_history returns the full event sequence in
append (oldest-first) order — each successful record_event appends one
entry at the end — and returns the empty sequence, not an error, for a
parcel with no recorded events. -/
theorem c8_history_append_order :
    (∀ (st : TrackState) (trk : String) (status : PackageStatus)
        (loc notes : String) (st' : TrackState),
      record_event st trk status loc notes = (true, st') →
      get_tracking_history st' trk
        = get_tracking_history st trk ++ [⟨status, loc, notes⟩]) ∧
    (∀ (st : TrackState) (trk : String),
      assocFind st.tracking_events trk = none → get_tracking_history st trk = []) := by
  constructor
  · intro st trk status loc notes st' h
    unfold record_event at h
    cases hfind : st.packages.find? (fun p => p.tracking_number = trk) with
    | none =>
      rw [hfind] at h
      injection h with h1 _
      cases h1
    | some p0 =>
      rw [hfind] at h
      injection h with h1 h2
      rw [← h2]
      simp [get_tracking_history, assocFind_put_self]
  · intro st trk h
    simp [get_tracking_history, h]

/-- Witness for the amended C8: recording PICKUP appends one entry to the
(empty) history. -/
theorem c8_witness :
    (record_event c8st0 "T8" .PICKUP "A" "" = (true, c8st1)) ∧
    get_tracking_history c8st1 "T8"
      = get_tracking_history c8st0 "T8" ++ [⟨.PICKUP, "A", ""⟩] :=
  ⟨rfl, c8_history_append_order.1 c8st0 "T8" .PICKUP "A" "" c8st1 rfl⟩

/-- C9: calculate_cost is deterministic — a repeated call on the same
state returns the same breakdown, and the breakdown depends only on the
snapshot's billing-relevant fields (tracking number, weight, dimensions,
distance), so two snapshots agreeing on them get identical breakdowns. -/
theorem c9_deterministic :
    (∀ (rules : ServiceType → Option M2PricingRule) (packages : List M2Package)
        (trk : String),
      calculate_cost rules packages trk = calculate_cost rules packages trk) ∧
    (∀ (rule : M2PricingRule) (p q : M2Package),
      p.tracking_number = q.tracking_number → p.weight = q.weight →
      p.length = q.length → p.width = q.width → p.height = q.height →
      p.distance = q.distance →
      calcCostWithRule p rule = calcCostWithRule q rule) := by
  refine ⟨fun _ _ _ => rfl, ?_⟩
  intro rule p q h1 h2 h3 h4 h5 h6
  simp [calcCostWithRule, M2Package.calculate_volume_weight, CostBreakdown.mk.injEq,
    h1, h2, h3, h4, h5, h6]

/-- Witness for C9: two distinct snapshots of the same parcel, differing
only in recipient, description, status, markers and location, produce
identical breakdowns. -/
theorem c9_witness :
    (c9pkgA.tracking_number = c9pkgB.tracking_number ∧ c9pkgA.weight = c9pkgB.weight ∧
      c9pkgA.length = c9pkgB.length ∧ c9pkgA.width = c9pkgB.width ∧
      c9pkgA.height = c9pkgB.height ∧ c9pkgA.distance = c9pkgB.distance) ∧
    (c9pkgA ≠ c9pkgB) ∧
    calcCostWithRule c9pkgA (mkM2PricingRule .EXPRESS 8)
      = calcCostWithRule c9pkgB (mkM2PricingRule .EXPRESS 8) :=
  ⟨⟨rfl, rfl, rfl, rfl, rfl, rfl⟩, by simp [c9pkgA, c9pkgB],
    c9_deterministic.2 (mkM2PricingRule .EXPRESS 8) c9pkgA c9pkgB rfl rfl rfl rfl rfl rfl⟩

/-- C10: only the customer, driver and warehouse roles are gated in
set_parcel_status — for an existing parcel in a non-abnormal state and a
non-empty requested status, a staff-role change always succeeds, updating
the parcel and appending an event with the new status; and staff, unlike
admin, remains subject to the abnormal-state lock. -/
theorem c10_staff_not_gated :
    (∀ (db : P9DB) (username trk rawStatus loc vid wid desc : String) (p : P9Parcel),
      trk ≠ "" → pyStrip rawStatus ≠ "" →
      findParcel db trk = some p →
      p.status ∉ ABNORMAL_STATUSES →
      ∃ db', set_parcel_status db "staff" username trk rawStatus loc vid wid desc
          = (.ok (pyStrip rawStatus), db') ∧
        (findParcel db' trk).map P9Parcel.status = some (pyStrip rawStatus) ∧
        ∃ ev, db'.events = db.events ++ [ev] ∧ ev.event_type = pyStrip rawStatus) ∧
    (∀ (db : P9DB) (username trk rawStatus loc vid wid desc : String) (p : P9Parcel),
      trk ≠ "" → pyStrip rawStatus ≠ "" →
      findParcel db trk = some p →
      p.status ∈ ABNORMAL_STATUSES →
      pyStrip rawStatus ∉ ["處理中", "退回"] →
      set_parcel_status db "staff" username trk rawStatus loc vid wid desc
        = (.err .InvalidTransition, db)) := by
  constructor
  · intro db username trk rawStatus loc vid wid desc p h3 h4 hfind hnab
    have hfind0 : db.parcels.find? (fun q => q.tracking_number = trk) = some p := hfind
    obtain ⟨hok, hfind'⟩ :=
      update_parcel_status_spec db.parcels trk (pyStrip rawStatus) p hfind0
    refine ⟨append_tracking_event
        { db with parcels := (update_parcel_status db.parcels trk (pyStrip rawStatus)).2 }
        ⟨trk, pyStrip rawStatus, loc, vid, wid, username,
          if desc = "" then "狀態變更為: " ++ pyStrip rawStatus else desc⟩,
      ?_, ?_, ⟨trk, pyStrip rawStatus, loc, vid, wid, username,
          if desc = "" then "狀態變更為: " ++ pyStrip rawStatus else desc⟩, rfl, rfl⟩
    · simp [set_parcel_status, show ("staff" : String) ≠ "customer" by decide,
        show ("staff" : String) ≠ "driver" by decide,
        show ("staff" : String) ≠ "warehouse" by decide,
        h3, h4, hfind, hnab, hok, append_tracking_event]
    · simp [findParcel, append_tracking_event, hfind']
  · intro db username trk rawStatus loc vid wid desc p h3 h4 hfind habn hrec
    simp [set_parcel_status, show ("staff" : String) ≠ "customer" by decide,
      show ("staff" : String) ≠ "admin" by decide, h3, h4, hfind, habn, hrec]

/-- Witness for C10: staff moves an in-transit parcel to 已送達; the call
succeeds, the parcel's status is updated, and the matching event is
appended. -/
theorem c10_witness :
    (("TRK-4" : String) ≠ "" ∧ pyStrip "已送達" ≠ "" ∧
      findParcel c10db "TRK-4" = some ⟨"TRK-4", "alice", "bob", "配送中", none⟩ ∧
      ("配送中" : String) ∉ ABNORMAL_STATUSES) ∧
    (∃ db', set_parcel_status c10db "staff" "staff1" "TRK-4" "已送達" "" "" "" ""
        = (.ok (pyStrip "已送達"), db') ∧
      (findParcel db' "TRK-4").map P9Parcel.status = some (pyStrip "已送達") ∧
      ∃ ev, db'.events = c10db.events ++ [ev] ∧ ev.event_type = pyStrip "已送達") :=
  ⟨⟨by decide, by decide, by decide, by decide⟩,
    c10_staff_not_gated.1 c10db "staff1" "TRK-4" "已送達" "" "" "" ""
      ⟨"TRK-4", "alice", "bob", "配送中", none⟩ (by decide) (by decide) (by decide)
      (by decide)⟩

end Logistics
